import Mathlib

/-!
Shallow embedding of `TWLight/applications/models.py` (class `Application`).

Dates are modelled as integers (day numbers); a Python `timedelta.days`
difference between two dates is then plain integer subtraction.  The
django-reversion store for one object is modelled as
`Option (List Version)`: `none` is the state in which
`reversion.get_for_object(self)` raises `TypeError` (the object has never
been persisted), and `some l` is a fetchable list of versions, most recent
first, possibly empty.  Python `None`-able fields are `Option` fields.
-/

/-- Metadata of one saved revision (django-reversion `Revision`):
the acting user and the revision timestamp. -/
structure Revision where
  user : Nat
  date_created : Int
  deriving DecidableEq, Repr

/-- One historical snapshot of an Application (django-reversion `Version`):
the snapshot of the `status` field (`version.field_dict['status']` is the
only field the source reads) plus its revision metadata. -/
structure Version where
  status : Int
  revision : Revision
  deriving DecidableEq, Repr

/-- The fields of `Application` that the save/derive logic and the accessors
under verification read or write.  `status` is a Django `IntegerField`;
`date_closed`, `days_open` and `earliest_expiry_date` are nullable. -/
structure Application where
  status : Int
  date_created : Int
  date_closed : Option Int
  days_open : Option Int
  earliest_expiry_date : Option Int
  deriving DecidableEq, Repr

namespace Application

/-- Status constant `PENDING = 0`. -/
def PENDING : Int := 0

/-- Status constant `QUESTION = 1`. -/
def QUESTION : Int := 1

/-- Status constant `APPROVED = 2`. -/
def APPROVED : Int := 2

/-- Status constant `NOT_APPROVED = 3`. -/
def NOT_APPROVED : Int := 3

/-- Embedding of `get_version_count`: `len(reversion.get_for_object(self))`
with `TypeError` (never-persisted object) caught and turned into `None`. -/
def get_version_count (gfo : Option (List Version)) : Option Nat :=
  match gfo with
  | none => none
  | some l => some l.length

/-- Embedding of `get_latest_version`: `reversion.get_for_object(self)[0]`
with `TypeError` and `IndexError` caught and turned into `None`. -/
def get_latest_version (gfo : Option (List Version)) : Option Version :=
  match gfo with
  | none => none
  | some [] => none
  | some (v :: _) => some v

/-- Embedding of `get_latest_revision`: the latest version's revision, or
`None` when there is no version. -/
def get_latest_revision (gfo : Option (List Version)) : Option Revision :=
  match get_latest_version gfo with
  | some v => some v.revision
  | none => none

/-- Embedding of `get_latest_reviewer`: the latest revision's user, or
`None` when there is no revision. -/
def get_latest_reviewer (gfo : Option (List Version)) : Option Nat :=
  match get_latest_revision gfo with
  | some r => some r.user
  | none => none

/-- Embedding of `get_latest_review_date`: the latest revision's
`date_created`, or `None` when there is no revision. -/
def get_latest_review_date (gfo : Option (List Version)) : Option Int :=
  match get_latest_revision gfo with
  | some r => some r.date_created
  | none => none

/-- The Python 2 comparison `count >= 2` where `count` may be `None`:
in Python 2, `None >= 2` evaluates to `False` (the source comment confirms
the `else` branch runs when the count is `None`). -/
def count_ge_two (count : Option Nat) : Bool :=
  match count with
  | some c => decide (2 ≤ c)
  | none => false

/-- The closure-derivation part of `save` (lines 93-115 of the source):
consult the revision store, and conditionally set `date_closed` and
`days_open`.  `today` is `date.today()` at the moment of the save. -/
def applyClosure (a : Application) (gfo : Option (List Version)) (today : Int) :
    Application :=
  let version := get_latest_version gfo
  let count := get_version_count gfo
  if count_ge_two count then
    match version with
    | some v =>
        if (v.status = PENDING ∨ v.status = QUESTION)
            ∧ (a.status = APPROVED ∨ a.status = NOT_APPROVED)
            ∧ a.date_closed = none then
          { a with date_closed := some today,
                   days_open := some (today - a.date_created) }
        else a
    | none => a
  else
    if (a.status = APPROVED ∨ a.status = NOT_APPROVED)
        ∧ a.date_closed = none then
      { a with date_closed := some today, days_open := some 0 }
    else a

/-- The expiry-derivation part of `save` (lines 117-118 of the source).
Modelled from the spec: `term` stands for `partner.access_grant_term`, "a
duration supplied by the related Partner entity" (`TWLight/resources/models.py`
is not part of the excerpt); it is modelled as a nonnegative number of days. -/
def applyExpiry (a : Application) (term : Nat) : Application :=
  match a.date_closed with
  | some dc =>
      if a.earliest_expiry_date = none then
        { a with earliest_expiry_date := some (dc + (term : Int)) }
      else a
  | none => a

/-- Embedding of `Application.save`: the closure derivation followed by the
expiry derivation (the final `super().save()` persists the record and is the
identity on the in-memory fields modelled here). -/
def save (a : Application) (gfo : Option (List Version)) (today : Int)
    (term : Nat) : Application :=
  applyExpiry (applyClosure a gfo today) term

/-- Embedding of the `LABELMAKER` dict lookup with `KeyError` caught:
a total function into `Option String`. -/
def LABELMAKER (s : Int) : Option String :=
  if s = PENDING then some "-primary"
  else if s = QUESTION then some "-warning"
  else if s = APPROVED then some "-success"
  else if s = NOT_APPROVED then some "-danger"
  else none

/-- Embedding of `get_bootstrap_class`: `LABELMAKER[self.status]` with
`KeyError` turned into `None`. -/
def get_bootstrap_class (a : Application) : Option String :=
  LABELMAKER a.status

/-- The two ways `get_num_days_open` can halt instead of returning:
the `assert` fails (status outside the four known values), or the
subtraction `self.date_closed - self.date_created` raises `TypeError`
because `date_closed` is `None`. -/
inductive DaysOpenFailure
  | assertionError
  | typeError
  deriving DecidableEq, Repr

/-- Embedding of `get_num_days_open`: days since creation for an open
status; for a closed status, days from creation to `date_closed`; for any
other status the `assert` halts. -/
def get_num_days_open (a : Application) (today : Int) :
    Except DaysOpenFailure Int :=
  if a.status = PENDING ∨ a.status = QUESTION then
    .ok (today - a.date_created)
  else if a.status = APPROVED ∨ a.status = NOT_APPROVED then
    match a.date_closed with
    | some dc => .ok (dc - a.date_created)
    | none => .error .typeError
  else .error .assertionError

/-- Embedding of `is_probably_expired`: true iff `earliest_expiry_date` is
set and at most today. -/
def is_probably_expired (a : Application) (today : Int) : Bool :=
  match a.earliest_expiry_date with
  | some d => decide (d ≤ today)
  | none => false

/-- One save's external inputs: the reversion store contents, the current
date, and the partner's access grant term at that moment. -/
structure SaveInput where
  gfo : Option (List Version)
  today : Int
  term : Nat

/-- A sequence of saves applied in order. -/
def saveSeq (a : Application) (inputs : List SaveInput) : Application :=
  inputs.foldl (fun acc i => save acc i.gfo i.today i.term) a

/-- The states an Application can be in when its derived fields are products
of the save logic alone: a fresh record has all three derived fields null;
between saves the caller may change `status`; each save applies the
derivation logic. -/
inductive Reachable : Application → Prop
  | init (s created : Int) : Reachable (Application.mk s created none none none)
  | mutate_status (s : Int) {a : Application} :
      Reachable a → Reachable { a with status := s }
  | step (gfo : Option (List Version)) (today : Int) (term : Nat)
      {a : Application} : Reachable a → Reachable (save a gfo today term)


/-- An application in which an expiry date can only be present together with
a closure date bounding it from below. -/
def GoodClosure (a : Application) : Prop :=
  ∀ e, a.earliest_expiry_date = some e →
    ∃ dc, a.date_closed = some dc ∧ dc ≤ e

lemma applyClosure_cases (a : Application) (gfo : Option (List Version)) (today : Int) :
    applyClosure a gfo today = a ∨
    applyClosure a gfo today =
      { a with date_closed := some today, days_open := some (today - a.date_created) } ∨
    applyClosure a gfo today =
      { a with date_closed := some today, days_open := some 0 } := by
  unfold applyClosure
  dsimp only
  repeat' split
  all_goals first
    | exact Or.inl rfl
    | exact Or.inr (Or.inl rfl)
    | exact Or.inr (Or.inr rfl)

lemma applyClosure_of_closed (a : Application) (gfo : Option (List Version))
    (today : Int) (d : Int) (h : a.date_closed = some d) :
    applyClosure a gfo today = a := by
  unfold applyClosure
  dsimp only
  repeat' split <;> simp_all

lemma applyClosure_earliest_eq (a : Application) (gfo : Option (List Version))
    (today : Int) :
    (applyClosure a gfo today).earliest_expiry_date = a.earliest_expiry_date := by
  rcases applyClosure_cases a gfo today with h | h | h <;> rw [h]

lemma applyExpiry_cases (a : Application) (term : Nat) :
    applyExpiry a term = a ∨
    (a.earliest_expiry_date = none ∧ ∃ dc, a.date_closed = some dc ∧
      applyExpiry a term = { a with earliest_expiry_date := some (dc + (term : Int)) }) := by
  unfold applyExpiry
  split
  · rename_i dc heq
    split
    · rename_i h
      exact Or.inr ⟨h, dc, heq, rfl⟩
    · exact Or.inl rfl
  · exact Or.inl rfl

lemma applyExpiry_date_closed (a : Application) (term : Nat) :
    (applyExpiry a term).date_closed = a.date_closed := by
  rcases applyExpiry_cases a term with h | ⟨_, dc, _, h⟩ <;> rw [h]

lemma applyExpiry_days_open (a : Application) (term : Nat) :
    (applyExpiry a term).days_open = a.days_open := by
  rcases applyExpiry_cases a term with h | ⟨_, dc, _, h⟩ <;> rw [h]

lemma applyExpiry_of_some (a : Application) (term : Nat) (e : Int)
    (h : a.earliest_expiry_date = some e) : applyExpiry a term = a := by
  unfold applyExpiry
  repeat' split <;> simp_all

lemma save_date_closed_of_closed (a : Application) (gfo : Option (List Version))
    (today : Int) (term : Nat) (d : Int) (h : a.date_closed = some d) :
    (save a gfo today term).date_closed = some d := by
  unfold save
  rw [applyClosure_of_closed a gfo today d h, applyExpiry_date_closed, h]

lemma save_days_open_of_closed (a : Application) (gfo : Option (List Version))
    (today : Int) (term : Nat) (d : Int) (h : a.date_closed = some d) :
    (save a gfo today term).days_open = a.days_open := by
  unfold save
  rw [applyClosure_of_closed a gfo today d h, applyExpiry_days_open]

lemma save_earliest_of_some (a : Application) (gfo : Option (List Version))
    (today : Int) (term : Nat) (e : Int) (h : a.earliest_expiry_date = some e) :
    (save a gfo today term).earliest_expiry_date = some e := by
  unfold save
  have h1 : (applyClosure a gfo today).earliest_expiry_date = some e := by
    rw [applyClosure_earliest_eq]; exact h
  rw [applyExpiry_of_some _ _ _ h1, h1]


lemma save_of_derived_set (a : Application) (gfo : Option (List Version))
    (today : Int) (term : Nat) (d e : Int)
    (h1 : a.date_closed = some d) (h2 : a.earliest_expiry_date = some e) :
    save a gfo today term = a := by
  unfold save
  rw [applyClosure_of_closed a gfo today d h1]
  exact applyExpiry_of_some a term e h2

lemma save_preserves_good (a : Application) (gfo : Option (List Version))
    (today : Int) (term : Nat) (h : GoodClosure a) :
    GoodClosure (save a gfo today term) := by
  intro e he
  unfold save at he ⊢
  rcases applyExpiry_cases (applyClosure a gfo today) term with hc | ⟨hnone, dc, hdc, hc⟩
  · rw [hc] at he ⊢
    have he' : a.earliest_expiry_date = some e := by
      rw [← applyClosure_earliest_eq a gfo today]; exact he
    obtain ⟨dc, hdc, hle⟩ := h e he'
    refine ⟨dc, ?_, hle⟩
    rw [applyClosure_of_closed a gfo today dc hdc]
    exact hdc
  · rw [hc] at he ⊢
    simp only [Option.some.injEq] at he
    refine ⟨dc, hdc, ?_⟩
    omega

lemma reachable_good (a : Application) (h : Reachable a) : GoodClosure a := by
  induction h with
  | init s c => intro e he; simp at he
  | mutate_status s _ ih =>
      intro e he
      obtain ⟨dc, hdc, hle⟩ := ih e he
      exact ⟨dc, hdc, hle⟩
  | step gfo today term _ ih => exact save_preserves_good _ _ _ _ ih

lemma reachable_days_open_closed (a : Application) (h : Reachable a) (n : Int)
    (hn : a.days_open = some n) : a.date_closed ≠ none := by
  induction h with
  | init s c => simp at hn
  | mutate_status s _ ih => exact ih hn
  | step gfo today term _ ih =>
      rename_i b _
      intro hcontra
      rw [save] at hn hcontra
      rw [applyExpiry_days_open] at hn
      rw [applyExpiry_date_closed] at hcontra
      rcases applyClosure_cases b gfo today with hc | hc | hc <;> rw [hc] at hn hcontra
      · exact ih hn hcontra
      · simp at hcontra
      · simp at hcontra

lemma saveSeq_cons (a : Application) (i : SaveInput) (is : List SaveInput) :
    saveSeq a (i :: is) = saveSeq (save a i.gfo i.today i.term) is := rfl

lemma saveSeq_date_closed_of_closed (a : Application) (inputs : List SaveInput)
    (d : Int) (h : a.date_closed = some d) :
    (saveSeq a inputs).date_closed = some d := by
  induction inputs generalizing a with
  | nil => exact h
  | cons i is ih =>
      rw [saveSeq_cons]
      exact ih _ (save_date_closed_of_closed _ _ _ _ _ h)

lemma saveSeq_earliest_of_some (a : Application) (inputs : List SaveInput)
    (e : Int) (h : a.earliest_expiry_date = some e) :
    (saveSeq a inputs).earliest_expiry_date = some e := by
  induction inputs generalizing a with
  | nil => exact h
  | cons i is ih =>
      rw [saveSeq_cons]
      exact ih _ (save_earliest_of_some _ _ _ _ _ h)

lemma saveSeq_days_open_of_reachable (a : Application) (inputs : List SaveInput)
    (hr : Reachable a) (n : Int) (h : a.days_open = some n) :
    (saveSeq a inputs).days_open = some n := by
  induction inputs generalizing a with
  | nil => exact h
  | cons i is ih =>
      rw [saveSeq_cons]
      have hdc := reachable_days_open_closed a hr n h
      obtain ⟨d, hd⟩ : ∃ d, a.date_closed = some d := by
        cases hx : a.date_closed with
        | none => exact absurd hx hdc
        | some d => exact ⟨d, rfl⟩
      refine ih _ (Reachable.step i.gfo i.today i.term hr) ?_
      rw [save_days_open_of_closed _ _ _ _ _ hd]
      exact h

/-- Claim C7 (counterexample): an application whose version list is fetchable
but empty has no snapshots, yet `get_version_count` returns the count 0, not
the absence value `None`. -/
theorem get_version_count_no_snapshots_cex :
    get_version_count (some ([] : List Version)) = some 0 ∧
    get_version_count (some ([] : List Version)) ≠ none :=
  ⟨rfl, by decide⟩

/-- Claim C7 (amended): on a never-persisted record (the version fetch raises
and is caught) all five history accessors return `None` rather than an error;
on a fetchable but empty version list the four latest-snapshot accessors
return `None` while `get_version_count` returns the count (`0` for an empty
list, and in general the length of the list). -/
theorem history_accessors_absence (l : List Version) :
    get_version_count (none : Option (List Version)) = none ∧
    get_latest_version (none : Option (List Version)) = none ∧
    get_latest_revision (none : Option (List Version)) = none ∧
    get_latest_reviewer (none : Option (List Version)) = none ∧
    get_latest_review_date (none : Option (List Version)) = none ∧
    get_latest_version (some ([] : List Version)) = none ∧
    get_latest_revision (some ([] : List Version)) = none ∧
    get_latest_reviewer (some ([] : List Version)) = none ∧
    get_latest_review_date (some ([] : List Version)) = none ∧
    get_version_count (some l) = some l.length :=
  ⟨rfl, rfl, rfl, rfl, rfl, rfl, rfl, rfl, rfl, rfl⟩

/-- Claim C8: `get_num_days_open` returns today minus the creation date for
an open status, the closure date minus the creation date for a closed status
with `date_closed` set, and halts on the assertion for any status outside the
four known values. -/
theorem get_num_days_open_spec (a : Application) (today : Int) :
    ((a.status = PENDING ∨ a.status = QUESTION) →
      get_num_days_open a today = Except.ok (today - a.date_created))
    ∧ (∀ dc, (a.status = APPROVED ∨ a.status = NOT_APPROVED) →
        a.date_closed = some dc →
        get_num_days_open a today = Except.ok (dc - a.date_created))
    ∧ (a.status ≠ PENDING → a.status ≠ QUESTION → a.status ≠ APPROVED →
        a.status ≠ NOT_APPROVED →
        get_num_days_open a today = Except.error DaysOpenFailure.assertionError) := by
  refine ⟨?_, ?_, ?_⟩
  · intro h
    unfold get_num_days_open
    rw [if_pos h]
  · intro dc h hdc
    rcases h with h | h <;>
      simp [get_num_days_open, h, hdc, PENDING, QUESTION, APPROVED, NOT_APPROVED]
  · intro h0 h1 h2 h3
    simp [get_num_days_open, h0, h1, h2, h3]

/-- Claim C8 (witness): concrete evaluations of the three cases. -/
theorem get_num_days_open_spec_witness :
    get_num_days_open (Application.mk PENDING 1 none none none) 4 =
      Except.ok (4 - (Application.mk PENDING 1 none none none).date_created) ∧
    get_num_days_open (Application.mk APPROVED 1 (some 6) (some 5) none) 9 =
      Except.ok (6 - (Application.mk APPROVED 1 (some 6) (some 5) none).date_created) ∧
    get_num_days_open (Application.mk 7 1 none none none) 4 =
      Except.error DaysOpenFailure.assertionError :=
  ⟨(get_num_days_open_spec (Application.mk PENDING 1 none none none) 4).1 (Or.inl rfl),
   (get_num_days_open_spec (Application.mk APPROVED 1 (some 6) (some 5) none) 9).2.1 6
     (Or.inl rfl) rfl,
   (get_num_days_open_spec (Application.mk 7 1 none none none) 4).2.2
     (by decide) (by decide) (by decide) (by decide)⟩

/-- Claim C9: `is_probably_expired` is true exactly when
`earliest_expiry_date` is set and at most today; hence it is false when the
field is absent and false when the field is strictly in the future. -/
theorem is_probably_expired_iff (a : Application) (today : Int) :
    is_probably_expired a today = true ↔
      ∃ d, a.earliest_expiry_date = some d ∧ d ≤ today := by
  cases h : a.earliest_expiry_date with
  | none => simp [is_probably_expired, h]
  | some d => simp [is_probably_expired, h]

/-- Claim C10: `get_bootstrap_class` yields the documented tag for each of
the four known statuses and `None` for every other status value. -/
theorem get_bootstrap_class_spec (a : Application) :
    (a.status = PENDING → get_bootstrap_class a = some "-primary")
    ∧ (a.status = QUESTION → get_bootstrap_class a = some "-warning")
    ∧ (a.status = APPROVED → get_bootstrap_class a = some "-success")
    ∧ (a.status = NOT_APPROVED → get_bootstrap_class a = some "-danger")
    ∧ (a.status ≠ PENDING → a.status ≠ QUESTION → a.status ≠ APPROVED →
        a.status ≠ NOT_APPROVED → get_bootstrap_class a = none) := by
  refine ⟨fun h => ?_, fun h => ?_, fun h => ?_, fun h => ?_,
    fun h0 h1 h2 h3 => ?_⟩
  · simp [get_bootstrap_class, LABELMAKER, h, PENDING, QUESTION, APPROVED, NOT_APPROVED]
  · simp [get_bootstrap_class, LABELMAKER, h, PENDING, QUESTION, APPROVED, NOT_APPROVED]
  · simp [get_bootstrap_class, LABELMAKER, h, PENDING, QUESTION, APPROVED, NOT_APPROVED]
  · simp [get_bootstrap_class, LABELMAKER, h, PENDING, QUESTION, APPROVED, NOT_APPROVED]
  · simp [get_bootstrap_class, LABELMAKER, h0, h1, h2, h3]

/-- Claim C10 (witness): concrete evaluations for the four statuses and one
unknown status. -/
theorem get_bootstrap_class_spec_witness :
    get_bootstrap_class (Application.mk PENDING 0 none none none) = some "-primary" ∧
    get_bootstrap_class (Application.mk QUESTION 0 none none none) = some "-warning" ∧
    get_bootstrap_class (Application.mk APPROVED 0 none none none) = some "-success" ∧
    get_bootstrap_class (Application.mk NOT_APPROVED 0 none none none) = some "-danger" ∧
    get_bootstrap_class (Application.mk 9 0 none none none) = none :=
  ⟨(get_bootstrap_class_spec (Application.mk PENDING 0 none none none)).1 rfl,
   (get_bootstrap_class_spec (Application.mk QUESTION 0 none none none)).2.1 rfl,
   (get_bootstrap_class_spec (Application.mk APPROVED 0 none none none)).2.2.1 rfl,
   (get_bootstrap_class_spec (Application.mk NOT_APPROVED 0 none none none)).2.2.2.1 rfl,
   (get_bootstrap_class_spec (Application.mk 9 0 none none none)).2.2.2.2
     (by decide) (by decide) (by decide) (by decide)⟩

/-- Claim C1 (counterexample): with exactly one prior version whose status
was PENDING, a current status of APPROVED and no `date_closed`, the claim
predicts `days_open = today - date_created = 5 - 0`, but `save` takes the
first-save branch and sets `days_open = 0`. -/
theorem save_one_prior_version_days_open_cex :
    (save (Application.mk APPROVED 0 none none none)
        (some [Version.mk PENDING (Revision.mk 0 0)]) 5 9).days_open ≠
      some (5 - (Application.mk APPROVED 0 none none none).date_created) := by
  decide

/-- Claim C1 (amended): for a save with at least two prior versions in the
revision store, if the most recent prior version's status was open, the
current status is closed and `date_closed` is unset, then after `save` the
record has `date_closed = today` and `days_open = today - date_created`. -/
theorem save_open_to_closed_sets_closure (a : Application) (v : Version)
    (l : List Version) (today : Int) (term : Nat) (hl : l ≠ [])
    (hprior : v.status = PENDING ∨ v.status = QUESTION)
    (hcur : a.status = APPROVED ∨ a.status = NOT_APPROVED)
    (hdc : a.date_closed = none) :
    (save a (some (v :: l)) today term).date_closed = some today ∧
    (save a (some (v :: l)) today term).days_open =
      some (today - a.date_created) := by
  have hc2 : count_ge_two (get_version_count (some (v :: l))) = true := by
    simp only [count_ge_two, get_version_count, decide_eq_true_eq, List.length_cons]
    have : 0 < l.length := List.length_pos.mpr hl
    omega
  have hclo : applyClosure a (some (v :: l)) today =
      { a with date_closed := some today,
               days_open := some (today - a.date_created) } := by
    unfold applyClosure
    dsimp only
    rw [hc2]
    simp only [if_true, get_latest_version]
    rw [if_pos ⟨hprior, hcur, hdc⟩]
  unfold save
  rw [hclo]
  exact ⟨applyExpiry_date_closed _ _, applyExpiry_days_open _ _⟩

/-- Claim C1 (amended, witness): a concrete save with two prior versions,
PENDING before, APPROVED now. -/
theorem save_open_to_closed_sets_closure_witness :
    (save (Application.mk APPROVED 0 none none none)
        (some [Version.mk PENDING (Revision.mk 0 0),
               Version.mk PENDING (Revision.mk 0 0)]) 5 9).date_closed =
      some 5 ∧
    (save (Application.mk APPROVED 0 none none none)
        (some [Version.mk PENDING (Revision.mk 0 0),
               Version.mk PENDING (Revision.mk 0 0)]) 5 9).days_open =
      some (5 - (Application.mk APPROVED 0 none none none).date_created) :=
  save_open_to_closed_sets_closure (Application.mk APPROVED 0 none none none)
    (Version.mk PENDING (Revision.mk 0 0)) [Version.mk PENDING (Revision.mk 0 0)]
    5 9 (by decide) (Or.inl rfl) (Or.inl rfl) rfl

/-- Claim C2: a save whose version count is exactly one behaves exactly like
a save with no history at all (so the prior snapshot's status is never
consulted), and if the current status is closed with `date_closed` unset it
sets `date_closed = today` and `days_open = 0`. -/
theorem save_single_version_first_save_branch (a : Application) (v : Version)
    (today : Int) (term : Nat) :
    save a (some [v]) today term = save a none today term
    ∧ ((a.status = APPROVED ∨ a.status = NOT_APPROVED) → a.date_closed = none →
        (save a (some [v]) today term).date_closed = some today
        ∧ (save a (some [v]) today term).days_open = some 0) := by
  have hcl : applyClosure a (some [v]) today = applyClosure a none today := by
    simp [applyClosure, get_version_count, get_latest_version, count_ge_two]
  constructor
  · unfold save
    rw [hcl]
  · intro hcur hdc
    have h2 : applyClosure a (some [v]) today =
        { a with date_closed := some today, days_open := some 0 } := by
      rw [hcl]
      rcases hcur with h | h <;>
        simp [applyClosure, get_version_count, get_latest_version, count_ge_two,
          h, hdc, PENDING, QUESTION, APPROVED, NOT_APPROVED]
    unfold save
    rw [h2]
    exact ⟨applyExpiry_date_closed _ _, applyExpiry_days_open _ _⟩

/-- Claim C2 (witness): a concrete save with exactly one prior version. -/
theorem save_single_version_first_save_branch_witness :
    save (Application.mk APPROVED 0 none none none)
        (some [Version.mk PENDING (Revision.mk 0 0)]) 5 9 =
      save (Application.mk APPROVED 0 none none none) none 5 9 ∧
    (save (Application.mk APPROVED 0 none none none)
        (some [Version.mk PENDING (Revision.mk 0 0)]) 5 9).date_closed =
      some 5 ∧
    (save (Application.mk APPROVED 0 none none none)
        (some [Version.mk PENDING (Revision.mk 0 0)]) 5 9).days_open = some 0 :=
  ⟨(save_single_version_first_save_branch (Application.mk APPROVED 0 none none none)
      (Version.mk PENDING (Revision.mk 0 0)) 5 9).1,
   (save_single_version_first_save_branch (Application.mk APPROVED 0 none none none)
      (Version.mk PENDING (Revision.mk 0 0)) 5 9).2 (Or.inl rfl) rfl⟩

/-- Claim C3: on a first save (no prior version, so the creation date is
today), a closed initial status with `date_closed` unset yields
`date_closed = date_created` and `days_open = 0`, while an open initial
status leaves `date_closed` and `days_open` absent. -/
theorem first_save_closure_fields (a : Application) (today : Int) (term : Nat) :
    (a.date_created = today →
      (a.status = APPROVED ∨ a.status = NOT_APPROVED) → a.date_closed = none →
        (save a none today term).date_closed = some a.date_created
        ∧ (save a none today term).days_open = some 0)
    ∧ ((a.status = PENDING ∨ a.status = QUESTION) → a.date_closed = none →
        a.days_open = none →
        (save a none today term).date_closed = none
        ∧ (save a none today term).days_open = none) := by
  constructor
  · intro hcreated hcur hdc
    have h2 : applyClosure a none today =
        { a with date_closed := some today, days_open := some 0 } := by
      rcases hcur with h | h <;>
        simp [applyClosure, get_version_count, get_latest_version, count_ge_two,
          h, hdc, PENDING, QUESTION, APPROVED, NOT_APPROVED]
    unfold save
    rw [h2, hcreated]
    exact ⟨applyExpiry_date_closed _ _, applyExpiry_days_open _ _⟩
  · intro hopen hdc hdo
    have h1 : applyClosure a none today = a := by
      rcases hopen with h | h <;>
        simp [applyClosure, get_version_count, get_latest_version, count_ge_two,
          h, hdc, PENDING, QUESTION, APPROVED, NOT_APPROVED]
    have h2 : applyExpiry a term = a := by
      unfold applyExpiry
      rw [hdc]
    unfold save
    rw [h1, h2]
    exact ⟨hdc, hdo⟩

/-- Claim C3 (witness): a first save of a closed record created today, and a
first save of an open record. -/
theorem first_save_closure_fields_witness :
    (save (Application.mk NOT_APPROVED 5 none none none) none 5 9).date_closed =
      some (Application.mk NOT_APPROVED 5 none none none).date_created ∧
    (save (Application.mk NOT_APPROVED 5 none none none) none 5 9).days_open =
      some 0 ∧
    (save (Application.mk PENDING 5 none none none) none 5 9).date_closed = none ∧
    (save (Application.mk PENDING 5 none none none) none 5 9).days_open = none := by
  refine ⟨?_, ?_, ?_, ?_⟩
  · exact ((first_save_closure_fields (Application.mk NOT_APPROVED 5 none none none)
      5 9).1 rfl (Or.inr rfl) rfl).1
  · exact ((first_save_closure_fields (Application.mk NOT_APPROVED 5 none none none)
      5 9).1 rfl (Or.inr rfl) rfl).2
  · exact ((first_save_closure_fields (Application.mk PENDING 5 none none none)
      5 9).2 (Or.inl rfl) rfl rfl).1
  · exact ((first_save_closure_fields (Application.mk PENDING 5 none none none)
      5 9).2 (Or.inl rfl) rfl rfl).2

/-- Claim C4: on every path through `save`, if after the closure derivation
`date_closed` is set and `earliest_expiry_date` is not, then
`earliest_expiry_date` becomes `date_closed` plus the access grant term in
effect at this save; and once `earliest_expiry_date` is set, a later save
never recomputes it, whatever the later term is. -/
theorem save_expiry_derivation (a : Application) (gfo : Option (List Version))
    (today : Int) (term : Nat) :
    ((applyClosure a gfo today).earliest_expiry_date = none →
      ∀ dc, (applyClosure a gfo today).date_closed = some dc →
        (save a gfo today term).earliest_expiry_date = some (dc + (term : Int)))
    ∧ (∀ e, a.earliest_expiry_date = some e →
        (save a gfo today term).earliest_expiry_date = some e) := by
  constructor
  · intro hnone dc hdc
    unfold save applyExpiry
    rw [hdc]
    dsimp only
    rw [if_pos hnone]
  · exact fun e he => save_earliest_of_some a gfo today term e he

/-- Claim C4 (witness): a concrete closing save derives the expiry date from
the closure date and the term 9; a later save with a different term 30 does
not change the already-set expiry date. -/
theorem save_expiry_derivation_witness :
    (save (Application.mk APPROVED 0 none none none) none 5 9).earliest_expiry_date =
      some (5 + ((9 : Nat) : Int)) ∧
    (save (Application.mk APPROVED 0 (some 5) (some 0) (some 14)) none 20
        30).earliest_expiry_date = some 14 :=
  ⟨(save_expiry_derivation (Application.mk APPROVED 0 none none none) none 5 9).1
      rfl 5 rfl,
   (save_expiry_derivation (Application.mk APPROVED 0 (some 5) (some 0) (some 14))
      none 20 30).2 14 rfl⟩

/-- Claim C5: saving a record whose three derived fields are already non-null
returns it entirely unchanged; and along any sequence of saves, a non-null
`date_closed` or `earliest_expiry_date` is never overwritten, and a non-null
`days_open` of a record whose derived fields are products of the save logic
is never overwritten. -/
theorem closure_fields_write_once (a : Application) (inputs : List SaveInput) :
    (∀ gfo today term d o e, a.date_closed = some d → a.days_open = some o →
        a.earliest_expiry_date = some e → save a gfo today term = a)
    ∧ (∀ d, a.date_closed = some d → (saveSeq a inputs).date_closed = some d)
    ∧ (∀ e, a.earliest_expiry_date = some e →
        (saveSeq a inputs).earliest_expiry_date = some e)
    ∧ (Reachable a → ∀ n, a.days_open = some n →
        (saveSeq a inputs).days_open = some n) := by
  refine ⟨?_, ?_, ?_, ?_⟩
  · exact fun gfo today term d o e h1 _ h3 =>
      save_of_derived_set a gfo today term d e h1 h3
  · exact fun d h => saveSeq_date_closed_of_closed a inputs d h
  · exact fun e h => saveSeq_earliest_of_some a inputs e h
  · exact fun hr n h => saveSeq_days_open_of_reachable a inputs hr n h

/-- Claim C5 (witness): an already-closed concrete record is unchanged by a
later save with different inputs, and a record closed by the save logic keeps
its `date_closed`, `days_open` and `earliest_expiry_date` across a further
sequence of saves. -/
theorem closure_fields_write_once_witness :
    save (Application.mk APPROVED 0 (some 5) (some 0) (some 14)) none 20 30 =
      Application.mk APPROVED 0 (some 5) (some 0) (some 14) ∧
    (saveSeq (Application.mk APPROVED 0 (some 5) (some 0) (some 14))
        [SaveInput.mk none 20 30]).date_closed = some 5 ∧
    (saveSeq (Application.mk APPROVED 0 (some 5) (some 0) (some 14))
        [SaveInput.mk none 20 30]).earliest_expiry_date = some 14 ∧
    (saveSeq (save (Application.mk APPROVED 0 none none none) none 5 9)
        [SaveInput.mk none 20 30]).days_open = some 0 :=
  ⟨(closure_fields_write_once (Application.mk APPROVED 0 (some 5) (some 0) (some 14))
      [SaveInput.mk none 20 30]).1 none 20 30 5 0 14 rfl rfl rfl,
   (closure_fields_write_once (Application.mk APPROVED 0 (some 5) (some 0) (some 14))
      [SaveInput.mk none 20 30]).2.1 5 rfl,
   (closure_fields_write_once (Application.mk APPROVED 0 (some 5) (some 0) (some 14))
      [SaveInput.mk none 20 30]).2.2.1 14 rfl,
   (closure_fields_write_once (save (Application.mk APPROVED 0 none none none) none 5 9)
      [SaveInput.mk none 20 30]).2.2.2
      (Reachable.step none 5 9 (Reachable.init APPROVED 0)) 0 rfl⟩

/-- Claim C6: in every application whose derived fields are products of the
save logic, whenever both `date_closed` and `earliest_expiry_date` are set,
the expiry date is at least the closure date. -/
theorem earliest_expiry_ge_date_closed (a : Application) (h : Reachable a)
    (dc e : Int) (h1 : a.date_closed = some dc)
    (h2 : a.earliest_expiry_date = some e) : dc ≤ e := by
  obtain ⟨dc', hdc', hle⟩ := reachable_good a h e h2
  rw [h1] at hdc'
  simp only [Option.some.injEq] at hdc'
  omega

/-- Claim C6 (witness): the invariant at a concrete reachable record, closed
on day 5 with a term of 9 days. -/
theorem earliest_expiry_ge_date_closed_witness : (5 : Int) ≤ 14 :=
  earliest_expiry_ge_date_closed
    (save (Application.mk APPROVED 0 none none none) none 5 9)
    (Reachable.step none 5 9 (Reachable.init APPROVED 0)) 5 14 (by decide)
    (by decide)

end Application
